import Mathlib

/-!
Shallow embedding of the OZZY voice-assistant front end.

The repository holds three near-duplicate variants of one React component:
  * the boolean variant   (src/src/App.tsx, first part)  — state `isCalling`,
    `isAgentSpeaking`, `error`;
  * the enum variant      (src/src/App.tsx, second part) — state `status`
    (idle / connecting / connected / error), `talkMode`, `isMuted`,
    `isAgentSpeaking`, `isUserSpeaking`, `isPTTActive`, `error`, `audioLevel`;
  * the multi-flag variant (src/unnamed/part_000)        — state `isCalling`,
    `hasError`, `isTransitioning`, `isCheckingMic`, `isMuted`, `errorDetail`.

Each React state setter rewrites one field of a state record; each event
handler or user action becomes a function from the state (and, for the async
flows, an environment record describing the microphone / HTTP / SDK
outcomes) to the new state together with the list of commands issued to the
external Retell client.  JavaScript numbers are embedded as rationals, with
`Option` marking the NaN produced by 0/0; JS string truthiness of the
`access_token` field is made explicit.
-/

/-- Commands the controller can issue to the external Retell client object.
`startCall` carries the accessToken value (`none` embeds JS `undefined`,
obtained when the 2xx body has no `access_token` field) and the
`emitRawAudioSamples` flag. -/
inductive RetellCmd where
  | startCall (accessToken : Option String) (emitRawAudioSamples : Bool)
  | stopCall
  | mute
  | unmute
deriving DecidableEq, Repr

/-- `response.ok` of the fetch API: HTTP status in the range 200–299. -/
def responseOk (status : Nat) : Bool :=
  200 ≤ status && status ≤ 299

/-- JS truthiness of the `access_token` field of the parsed JSON body:
falsy when the field is absent (`undefined`) or the empty string. -/
def tokenTruthy : Option String → Bool
  | none => false
  | some t => t != ""

namespace EnumApp

/-- `type CallStatus = 'idle' | 'connecting' | 'connected' | 'error'`. -/
inductive CallStatus where
  | idle
  | connecting
  | connected
  | error
deriving DecidableEq, Repr

/-- `type TalkMode = 'continuous' | 'push-to-talk'`. -/
inductive TalkMode where
  | continuous
  | pushToTalk
deriving DecidableEq, Repr

/-- The React state of the enum variant.  `audioLevel` is a JS number:
`none` embeds NaN, `some q` an ordinary value. -/
structure EnumState where
  status : CallStatus
  talkMode : TalkMode
  isMuted : Bool
  isAgentSpeaking : Bool
  isUserSpeaking : Bool
  isPTTActive : Bool
  error : Option String
  audioLevel : Option ℚ
deriving DecidableEq, Repr

/-- The initial state produced by the useState initialisers. -/
def initialState : EnumState :=
  { status := .idle
    talkMode := .continuous
    isMuted := false
    isAgentSpeaking := false
    isUserSpeaking := false
    isPTTActive := false
    error := none
    audioLevel := some 0 }

/-- Handler registered for the call_started event:
`setStatus('connected'); setError(null)`. -/
def onCallStarted (s : EnumState) : EnumState :=
  { s with status := .connected, error := none }

/-- Handler registered for the call_ended event:
`setStatus('idle'); setIsAgentSpeaking(false); setIsUserSpeaking(false);
setIsMuted(false)`.  Note that `isPTTActive` is not touched. -/
def onCallEnded (s : EnumState) : EnumState :=
  { s with
      status := .idle
      isAgentSpeaking := false
      isUserSpeaking := false
      isMuted := false }

/-- Handler for agent_start_talking. -/
def onAgentStartTalking (s : EnumState) : EnumState :=
  { s with isAgentSpeaking := true }

/-- Handler for agent_stop_talking. -/
def onAgentStopTalking (s : EnumState) : EnumState :=
  { s with isAgentSpeaking := false }

/-- Handler registered for the error event:
`setError('Connection error. Please try again.'); setStatus('error')`.
It issues no command to the external client. -/
def onError (s : EnumState) : EnumState × List RetellCmd :=
  ({ s with
       error := some "Connection error. Please try again."
       status := .error }, [])

/-- The reduce in the audio handler:
`audio.reduce((acc, val) => acc + Math.abs(val), 0)`. -/
def absSum (audio : List ℚ) : ℚ :=
  audio.foldl (fun acc val => acc + |val|) 0

/-- The value stored by the audio handler:
`avg = sum / audio.length; Math.min(avg * 10, 1)`.
When the buffer is empty the JS division is 0/0 = NaN, `NaN * 10` is NaN and
`Math.min(NaN, 1)` is NaN, embedded as `none`. -/
def audioLevelOf (audio : List ℚ) : Option ℚ :=
  if audio.length = 0 then none
  else some (min (absSum audio / (audio.length : ℚ) * 10) 1)

/-- Handler registered for the audio event. -/
def onAudio (s : EnumState) (audio : List ℚ) : EnumState :=
  { s with audioLevel := audioLevelOf audio }

/-- Outcomes of the asynchronous collaborators during one run of `startCall`:
whether getUserMedia resolves, the HTTP status of POST /create-web-call, the
`access_token` field of its 2xx JSON body (`none` when absent), and whether
the external client startCall rejects. -/
structure StartEnv where
  micPermission : Bool
  httpStatus : Nat
  accessToken : Option String
  startCallFails : Bool
deriving DecidableEq, Repr

/-- Result of one run of `startCall`: the final state, the commands issued
to the external client, and the successive values assigned to `status`. -/
structure StartResult where
  state : EnumState
  cmds : List RetellCmd
  statusTrace : List CallStatus
deriving DecidableEq, Repr

/-- `startCall` of the enum variant: set status connecting and clear the
error, request mic permission (on denial set an error message and status
error and return), call `registerCall` (which throws on non-2xx, caught
below), then invoke the external client startCall with the destructured
`access_token` and `emitRawAudioSamples: true`; any thrown error is caught,
setting an error message and status error. -/
def startCall (s : EnumState) (env : StartEnv) : StartResult :=
  let s1 : EnumState := { s with status := .connecting, error := none }
  if !env.micPermission then
    { state :=
        { s1 with
            error := some "Microphone access denied. Please allow microphone in your browser settings."
            status := .error }
      cmds := []
      statusTrace := [.connecting, .error] }
  else if !responseOk env.httpStatus then
    { state :=
        { s1 with
            error := some "Failed to connect. Check your microphone permissions."
            status := .error }
      cmds := []
      statusTrace := [.connecting, .error] }
  else if env.startCallFails then
    { state :=
        { s1 with
            error := some "Failed to connect. Check your microphone permissions."
            status := .error }
      cmds := [RetellCmd.startCall env.accessToken true]
      statusTrace := [.connecting, .error] }
  else
    { state := s1
      cmds := [RetellCmd.startCall env.accessToken true]
      statusTrace := [.connecting] }

/-- `stopCall` of the enum variant. -/
def stopCall (s : EnumState) : EnumState × List RetellCmd :=
  ({ s with status := .idle }, [RetellCmd.stopCall])

/-- `toggleMute` of the enum variant.  There is no status guard in the
source: it always flips `isMuted` and issues the external command. -/
def toggleMute (s : EnumState) : EnumState × List RetellCmd :=
  if s.isMuted then
    ({ s with isMuted := false }, [RetellCmd.unmute])
  else
    ({ s with isMuted := true }, [RetellCmd.mute])

/-- `handlePTTStart`: early return unless connected and in push-to-talk
mode; otherwise set `isPTTActive` and unmute.  There is no guard on
`isPTTActive` being already true. -/
def handlePTTStart (s : EnumState) : EnumState × List RetellCmd :=
  if s.status ≠ .connected ∨ s.talkMode ≠ .pushToTalk then (s, [])
  else ({ s with isPTTActive := true }, [RetellCmd.unmute])

/-- `handlePTTEnd`: early return unless in push-to-talk mode; otherwise
clear `isPTTActive` and mute. -/
def handlePTTEnd (s : EnumState) : EnumState × List RetellCmd :=
  if s.talkMode ≠ .pushToTalk then (s, [])
  else ({ s with isPTTActive := false }, [RetellCmd.mute])

/-- `switchMode`: set `talkMode`; when connected additionally force the mute
state to match the new mode (mute for push-to-talk, unmute for continuous). -/
def switchMode (s : EnumState) (mode : TalkMode) : EnumState × List RetellCmd :=
  let s1 : EnumState := { s with talkMode := mode }
  if s1.status = .connected then
    if mode = .pushToTalk then
      ({ s1 with isMuted := true }, [RetellCmd.mute])
    else
      ({ s1 with isMuted := false }, [RetellCmd.unmute])
  else (s1, [])

/-- The keydown listener: on Space in push-to-talk mode while connected,
`handlePTTStart`; on KeyM while connected, `toggleMute`. -/
def handleKeyDown (s : EnumState) (code : String) : EnumState × List RetellCmd :=
  let r1 :=
    if code = "Space" ∧ s.talkMode = .pushToTalk ∧ s.status = .connected then
      handlePTTStart s
    else (s, [])
  let r2 :=
    if code = "KeyM" ∧ r1.1.status = .connected then
      toggleMute r1.1
    else (r1.1, [])
  (r2.1, r1.2 ++ r2.2)

/-- The keyup listener: on Space in push-to-talk mode, `handlePTTEnd`. -/
def handleKeyUp (s : EnumState) (code : String) : EnumState × List RetellCmd :=
  if code = "Space" ∧ s.talkMode = .pushToTalk then handlePTTEnd s
  else (s, [])

end EnumApp

namespace BoolApp

/-- The React state of the boolean variant (first part of src/src/App.tsx). -/
structure BoolState where
  isCalling : Bool
  isAgentSpeaking : Bool
  error : Option String
deriving DecidableEq, Repr

/-- The initial state produced by the useState initialisers. -/
def initialState : BoolState :=
  { isCalling := false, isAgentSpeaking := false, error := none }

/-- Handler for call_started: `setError(null)` only. -/
def onCallStarted (s : BoolState) : BoolState :=
  { s with error := none }

/-- Handler for call_ended:
`setIsCalling(false); setIsAgentSpeaking(false)`. -/
def onCallEnded (s : BoolState) : BoolState :=
  { s with isCalling := false, isAgentSpeaking := false }

/-- Handler for the error event:
`setError('Connection error. Please try again.');
retellWebClient.stopCall(); setIsCalling(false)`. -/
def onError (s : BoolState) : BoolState × List RetellCmd :=
  ({ s with
       error := some "Connection error. Please try again."
       isCalling := false }, [RetellCmd.stopCall])

/-- Outcomes of the asynchronous collaborators during one run of the start
branch of `toggleConversation`: the HTTP status of POST /create-web-call,
the `access_token` field of its 2xx JSON body (`none` when absent), and
whether the external client startCall rejects. -/
structure ToggleEnv where
  httpStatus : Nat
  accessToken : Option String
  startCallFails : Bool
deriving DecidableEq, Repr

/-- `toggleConversation` of the boolean variant.  When calling, stop.
Otherwise clear the error, register the call (`registerCall` throws on
non-2xx), and only when the `access_token` is truthy invoke the external
startCall and set `isCalling`; thrown errors are caught, setting an error
message. -/
def toggleConversation (s : BoolState) (env : ToggleEnv) :
    BoolState × List RetellCmd :=
  if s.isCalling then (s, [RetellCmd.stopCall])
  else
    let s1 : BoolState := { s with error := none }
    if !responseOk env.httpStatus then
      ({ s1 with error := some "Failed to connect. Check microphone permissions." }, [])
    else if tokenTruthy env.accessToken then
      if env.startCallFails then
        ({ s1 with error := some "Failed to connect. Check microphone permissions." },
         [RetellCmd.startCall env.accessToken false])
      else
        ({ s1 with isCalling := true },
         [RetellCmd.startCall env.accessToken false])
    else (s1, [])

end BoolApp

namespace FlagApp

/-- The React state of the multi-flag variant (src/unnamed/part_000). -/
structure FlagState where
  isCalling : Bool
  hasError : Bool
  isTransitioning : Bool
  isCheckingMic : Bool
  isMuted : Bool
  errorDetail : String
deriving DecidableEq, Repr

/-- The initial state produced by the useState initialisers. -/
def initialState : FlagState :=
  { isCalling := false
    hasError := false
    isTransitioning := false
    isCheckingMic := false
    isMuted := false
    errorDetail := "" }

/-- Handler for call_started:
`setHasError(false); setIsTransitioning(false); setIsCheckingMic(false)`. -/
def onCallStarted (s : FlagState) : FlagState :=
  { s with hasError := false, isTransitioning := false, isCheckingMic := false }

/-- Handler for call_ended: `setIsCalling(false); setHasError(false);
setIsTransitioning(false); setIsMuted(false)`. -/
def onCallEnded (s : FlagState) : FlagState :=
  { s with
      isCalling := false
      hasError := false
      isTransitioning := false
      isMuted := false }

/-- Handler for the error event: `setHasError(true);
retellWebClient.stopCall(); setIsCalling(false); setIsTransitioning(false);
setIsCheckingMic(false)`. -/
def onError (s : FlagState) : FlagState × List RetellCmd :=
  ({ s with
       hasError := true
       isCalling := false
       isTransitioning := false
       isCheckingMic := false }, [RetellCmd.stopCall])

/-- Outcomes of the asynchronous collaborators during one run of the start
branch of `toggleConversation`: whether getUserMedia resolves (and the
detail message recorded on failure), the HTTP status, the `access_token`
field of the 2xx body, and whether the external startCall rejects. -/
structure ToggleEnv where
  micPermission : Bool
  micErrorDetail : String
  httpStatus : Nat
  accessToken : Option String
  startCallFails : Bool
deriving DecidableEq, Repr

/-- `toggleConversation` of the multi-flag variant.  Early return when
transitioning or checking the mic.  When calling: set transitioning, stop.
Otherwise: set `isCheckingMic`; run the mic check (which records
`errorDetail`); on denial set `hasError` and clear `isCheckingMic` and
return; on success set `isTransitioning` and clear `hasError`, register the
call (throws on non-2xx), and when `access_token` is truthy invoke the
external startCall and set `isCalling`; a thrown error is caught, setting
`hasError` and clearing `isTransitioning`; finally clear `isCheckingMic`.
Note the falsy-token path leaves `isTransitioning` true. -/
def toggleConversation (s : FlagState) (env : ToggleEnv) :
    FlagState × List RetellCmd :=
  if s.isTransitioning ∨ s.isCheckingMic then (s, [])
  else if s.isCalling then
    ({ s with isTransitioning := true }, [RetellCmd.stopCall])
  else
    let s1 : FlagState := { s with isCheckingMic := true }
    if !env.micPermission then
      ({ s1 with
           errorDetail := env.micErrorDetail
           hasError := true
           isCheckingMic := false }, [])
    else
      let s2 : FlagState :=
        { s1 with errorDetail := "", isTransitioning := true, hasError := false }
      if !responseOk env.httpStatus then
        ({ s2 with
             hasError := true
             isTransitioning := false
             isCheckingMic := false }, [])
      else if tokenTruthy env.accessToken then
        if env.startCallFails then
          ({ s2 with
               hasError := true
               isTransitioning := false
               isCheckingMic := false },
           [RetellCmd.startCall env.accessToken false])
        else
          ({ s2 with isCalling := true, isCheckingMic := false },
           [RetellCmd.startCall env.accessToken false])
      else
        ({ s2 with isCheckingMic := false }, [])

/-- `toggleMute` of the multi-flag variant: early return when not calling;
otherwise flip `isMuted` with the matching external command. -/
def toggleMute (s : FlagState) : FlagState × List RetellCmd :=
  if !s.isCalling then (s, [])
  else if s.isMuted then
    ({ s with isMuted := false }, [RetellCmd.unmute])
  else
    ({ s with isMuted := true }, [RetellCmd.mute])

/-- The `disabled` attribute of the start button:
`isTransitioning || isCheckingMic`. -/
def startButtonDisabled (s : FlagState) : Bool :=
  s.isTransitioning || s.isCheckingMic

end FlagApp

namespace EnumApp

/-- The foldl of the audio handler keeps a nonnegative accumulator
nonnegative. -/
theorem foldl_absSum_nonneg (audio : List ℚ) (c : ℚ) (hc : 0 ≤ c) :
    0 ≤ audio.foldl (fun acc val => acc + |val|) c := by
  induction audio generalizing c with
  | nil => simpa using hc
  | cons a as ih => exact ih (c + |a|) (add_nonneg hc (abs_nonneg a))

/-- The reduce of the audio handler is nonnegative. -/
theorem absSum_nonneg (audio : List ℚ) : 0 ≤ absSum audio :=
  foldl_absSum_nonneg audio 0 le_rfl

end EnumApp

/-- Claim C1 (amended): handling `call_ended` in the enum variant resets
`status` to idle and `isMuted`, `isAgentSpeaking`, `isUserSpeaking` to
false from every prior state, but leaves `isPTTActive` unchanged; the
multi-flag variant resets `isCalling` and `isMuted`. -/
theorem C1_call_ended_reset (s : EnumApp.EnumState) (t : FlagApp.FlagState) :
    (EnumApp.onCallEnded s).status = .idle ∧
    (EnumApp.onCallEnded s).isMuted = false ∧
    (EnumApp.onCallEnded s).isAgentSpeaking = false ∧
    (EnumApp.onCallEnded s).isUserSpeaking = false ∧
    (EnumApp.onCallEnded s).isPTTActive = s.isPTTActive ∧
    (FlagApp.onCallEnded t).isCalling = false ∧
    (FlagApp.onCallEnded t).isMuted = false := by
  simp [EnumApp.onCallEnded, FlagApp.onCallEnded]

/-- Claim C1 counterexample: from a connected state in which the user is
holding push-to-talk, the enum variant's `call_ended` handler leaves
`isPTTActive = true`, so the handler does not result in
`isPTTActive = false` for every prior state. -/
theorem C1_counterexample :
    (EnumApp.onCallEnded
      { EnumApp.initialState with
          status := .connected
          talkMode := .pushToTalk
          isPTTActive := true }).isPTTActive = true := rfl

/-- Claim C2 (amended): for every state with `status = connected`, the enum
variant's error handler sets `status = error` with a non-empty error
message, but issues no external command (in particular `stopCall` is not
invoked) and leaves `isAgentSpeaking` and `isMuted` unchanged; the boolean
variant's error handler does invoke `stopCall` and clears `isCalling`. -/
theorem C2_error_handler (s : EnumApp.EnumState) (h : s.status = .connected) :
    (EnumApp.onError s).1.status = .error ∧
    (∃ msg, (EnumApp.onError s).1.error = some msg ∧ msg ≠ "") ∧
    (EnumApp.onError s).2 = [] ∧
    (EnumApp.onError s).1.isAgentSpeaking = s.isAgentSpeaking ∧
    (EnumApp.onError s).1.isMuted = s.isMuted ∧
    (∀ t : BoolApp.BoolState,
      (BoolApp.onError t).2 = [RetellCmd.stopCall] ∧
      (BoolApp.onError t).1.isCalling = false) := by
  refine ⟨rfl, ⟨"Connection error. Please try again.", rfl, by decide⟩, rfl, rfl, rfl, ?_⟩
  intro t
  exact ⟨rfl, rfl⟩

/-- Claim C2 witness: the amended statement instantiated at a concrete
connected state. -/
theorem C2_witness :
    (EnumApp.onError
      { EnumApp.initialState with status := .connected }).1.status = .error ∧
    (∃ msg, (EnumApp.onError
      { EnumApp.initialState with status := .connected }).1.error = some msg ∧ msg ≠ "") ∧
    (EnumApp.onError
      { EnumApp.initialState with status := .connected }).2 = [] ∧
    (EnumApp.onError
      { EnumApp.initialState with status := .connected }).1.isAgentSpeaking =
      ({ EnumApp.initialState with status := .connected } : EnumApp.EnumState).isAgentSpeaking ∧
    (EnumApp.onError
      { EnumApp.initialState with status := .connected }).1.isMuted =
      ({ EnumApp.initialState with status := .connected } : EnumApp.EnumState).isMuted ∧
    (∀ t : BoolApp.BoolState,
      (BoolApp.onError t).2 = [RetellCmd.stopCall] ∧
      (BoolApp.onError t).1.isCalling = false) :=
  C2_error_handler { EnumApp.initialState with status := .connected } rfl

/-- Claim C2 counterexample: from a connected state with the agent speaking
and the microphone muted, the enum variant's error handler issues no
`stopCall` command and leaves `isAgentSpeaking` and `isMuted` true, so the
claim fails as stated. -/
theorem C2_counterexample :
    ({ EnumApp.initialState with
        status := .connected
        isAgentSpeaking := true
        isMuted := true } : EnumApp.EnumState).status = .connected ∧
    (EnumApp.onError
      { EnumApp.initialState with
          status := .connected
          isAgentSpeaking := true
          isMuted := true }).2 = [] ∧
    (EnumApp.onError
      { EnumApp.initialState with
          status := .connected
          isAgentSpeaking := true
          isMuted := true }).1.isAgentSpeaking = true ∧
    (EnumApp.onError
      { EnumApp.initialState with
          status := .connected
          isAgentSpeaking := true
          isMuted := true }).1.isMuted = true :=
  ⟨rfl, rfl, rfl, rfl⟩

/-- Claim C3 (amended): `startCall` of the enum variant never consults
`talkMode`: it issues no external mute command, leaves `isMuted` at its
prior value, and the subsequent `call_started` handler also leaves
`isMuted` unchanged — so a push-to-talk session does not start muted. -/
theorem C3_start_ignores_talk_mode (s : EnumApp.EnumState) (env : EnumApp.StartEnv) :
    RetellCmd.mute ∉ (EnumApp.startCall s env).cmds ∧
    (EnumApp.startCall s env).state.isMuted = s.isMuted ∧
    (EnumApp.onCallStarted (EnumApp.startCall s env).state).isMuted = s.isMuted := by
  cases hm : env.micPermission <;>
    cases hr : responseOk env.httpStatus <;>
      cases hf : env.startCallFails <;>
        simp [EnumApp.startCall, EnumApp.onCallStarted, hm, hr, hf]

/-- Claim C3 counterexample: starting a fresh session in push-to-talk mode
with every collaborator succeeding, the only command issued is the external
startCall (no mute), and after the `call_started` event the session is
unmuted (`isMuted = false`), contradicting the claim that the session
starts muted. -/
theorem C3_counterexample :
    (EnumApp.startCall { EnumApp.initialState with talkMode := .pushToTalk }
      { micPermission := true, httpStatus := 200, accessToken := some "tok",
        startCallFails := false }).cmds =
      [RetellCmd.startCall (some "tok") true] ∧
    (EnumApp.onCallStarted
      (EnumApp.startCall { EnumApp.initialState with talkMode := .pushToTalk }
        { micPermission := true, httpStatus := 200, accessToken := some "tok",
          startCallFails := false }).state).isMuted = false :=
  ⟨rfl, rfl⟩

/-- Claim C4: the audio handler never throws, and for every nonempty buffer
it stores the mean absolute amplitude scaled by 10 and clamped to [0,1];
but at the failing input — an empty buffer — the JS computation is
0/0 = NaN, so the stored `audioLevel` is NaN (embedded `none`), not 0. -/
theorem C4_audio_level (s : EnumApp.EnumState) :
    EnumApp.audioLevelOf [] = none ∧
    (EnumApp.onAudio s []).audioLevel = none ∧
    (∀ audio : List ℚ, audio ≠ [] →
      ∃ v, EnumApp.audioLevelOf audio = some v ∧ 0 ≤ v ∧ v ≤ 1 ∧
        (EnumApp.onAudio s audio).audioLevel = some v) := by
  refine ⟨rfl, rfl, ?_⟩
  intro audio hne
  have hlen : audio.length ≠ 0 := by simpa using hne
  refine ⟨min (EnumApp.absSum audio / (audio.length : ℚ) * 10) 1, ?_, ?_, ?_, ?_⟩
  · simp [EnumApp.audioLevelOf, hlen]
  · refine le_min ?_ zero_le_one
    have hnum : 0 ≤ EnumApp.absSum audio / (audio.length : ℚ) :=
      div_nonneg (EnumApp.absSum_nonneg audio) (by positivity)
    positivity
  · exact min_le_right _ _
  · simp [EnumApp.onAudio, EnumApp.audioLevelOf, hlen]

/-- Claim C4 witness: the statement instantiated at the empty buffer and at
the concrete buffer [1]. -/
theorem C4_witness :
    EnumApp.audioLevelOf [] = none ∧
    (∃ v, EnumApp.audioLevelOf [(1 : ℚ)] = some v ∧ 0 ≤ v ∧ v ≤ 1 ∧
      (EnumApp.onAudio EnumApp.initialState [(1 : ℚ)]).audioLevel = some v) :=
  ⟨(C4_audio_level EnumApp.initialState).1,
   (C4_audio_level EnumApp.initialState).2.2 [(1 : ℚ)] (by decide)⟩

/-- Claim C5 (amended): the enum variant's `toggleMute` has no status
guard — in every state, connected or not, it flips `isMuted` and issues the
matching external command (only the rendering layer restricts when it is
reachable); the multi-flag variant's `toggleMute` is a no-op when
`isCalling = false` and flips `isMuted` with the external command when
`isCalling = true`. -/
theorem C5_toggle_mute :
    (∀ s : EnumApp.EnumState,
      (EnumApp.toggleMute s).1.isMuted = !s.isMuted ∧
      (EnumApp.toggleMute s).2 =
        [if s.isMuted then RetellCmd.unmute else RetellCmd.mute]) ∧
    (∀ t : FlagApp.FlagState, t.isCalling = false →
      FlagApp.toggleMute t = (t, [])) ∧
    (∀ t : FlagApp.FlagState, t.isCalling = true →
      (FlagApp.toggleMute t).1.isMuted = !t.isMuted ∧
      (FlagApp.toggleMute t).2 =
        [if t.isMuted then RetellCmd.unmute else RetellCmd.mute]) := by
  refine ⟨?_, ?_, ?_⟩
  · intro s
    cases hm : s.isMuted <;> simp [EnumApp.toggleMute, hm]
  · intro t ht
    simp [FlagApp.toggleMute, ht]
  · intro t ht
    cases hm : t.isMuted <;> simp [FlagApp.toggleMute, ht, hm]

/-- Claim C5 witness: the amended statement instantiated at the fresh
multi-flag state (not calling: no-op) and at a calling state (flip). -/
theorem C5_witness :
    FlagApp.toggleMute FlagApp.initialState = (FlagApp.initialState, []) ∧
    (FlagApp.toggleMute
      { FlagApp.initialState with isCalling := true }).1.isMuted = true ∧
    (FlagApp.toggleMute
      { FlagApp.initialState with isCalling := true }).2 = [RetellCmd.mute] := by
  have h1 := C5_toggle_mute.2.1 FlagApp.initialState rfl
  have h2 := C5_toggle_mute.2.2 { FlagApp.initialState with isCalling := true } rfl
  exact ⟨h1, by simpa using h2.1, by simpa using h2.2⟩

/-- Claim C5 counterexample: in the enum variant with `status = idle`,
invoking `toggleMute` is not a no-op — it issues the external mute command
and sets `isMuted = true`. -/
theorem C5_counterexample :
    EnumApp.initialState.status ≠ .connected ∧
    (EnumApp.toggleMute EnumApp.initialState).1.isMuted = true ∧
    (EnumApp.toggleMute EnumApp.initialState).2 = [RetellCmd.mute] :=
  ⟨by decide, rfl, rfl⟩

/-- Claim C6 (amended): in the enum variant, `startCall` never assigns
`status = connected` (the transition happens only in the `call_started`
handler); in the boolean variant, however, `toggleConversation` sets
`isCalling = true` directly after the external startCall resolves, without
waiting for the `call_started` event. -/
theorem C6_connected_transition (s : EnumApp.EnumState) (env : EnumApp.StartEnv) :
    EnumApp.CallStatus.connected ∉ (EnumApp.startCall s env).statusTrace ∧
    (EnumApp.startCall s env).state.status ≠ .connected ∧
    (EnumApp.onCallStarted s).status = .connected ∧
    (∀ t : BoolApp.BoolState, ∀ envB : BoolApp.ToggleEnv,
      t.isCalling = false → responseOk envB.httpStatus = true →
      tokenTruthy envB.accessToken = true → envB.startCallFails = false →
      (BoolApp.toggleConversation t envB).1.isCalling = true) := by
  refine ⟨?_, ?_, rfl, ?_⟩
  · cases hm : env.micPermission <;>
      cases hr : responseOk env.httpStatus <;>
        cases hf : env.startCallFails <;>
          simp [EnumApp.startCall, hm, hr, hf]
  · cases hm : env.micPermission <;>
      cases hr : responseOk env.httpStatus <;>
        cases hf : env.startCallFails <;>
          simp [EnumApp.startCall, hm, hr, hf]
  · intro t envB ht hr htok hf
    simp [BoolApp.toggleConversation, ht, hr, htok, hf]

/-- Claim C6 witness: the amended statement instantiated at the fresh enum
state with a successful environment and at the fresh boolean state. -/
theorem C6_witness :
    EnumApp.CallStatus.connected ∉
      (EnumApp.startCall EnumApp.initialState
        { micPermission := true, httpStatus := 200, accessToken := some "tok",
          startCallFails := false }).statusTrace ∧
    (EnumApp.startCall EnumApp.initialState
        { micPermission := true, httpStatus := 200, accessToken := some "tok",
          startCallFails := false }).state.status ≠ .connected ∧
    (BoolApp.toggleConversation BoolApp.initialState
        { httpStatus := 200, accessToken := some "tok",
          startCallFails := false }).1.isCalling = true := by
  have h := C6_connected_transition EnumApp.initialState
    { micPermission := true, httpStatus := 200, accessToken := some "tok",
      startCallFails := false }
  exact ⟨h.1, h.2.1,
    h.2.2.2 BoolApp.initialState
      { httpStatus := 200, accessToken := some "tok", startCallFails := false }
      rfl (by decide) (by decide) rfl⟩

/-- Claim C6 counterexample: in the boolean variant, a successful
`toggleConversation` run (HTTP 200, truthy token, startCall resolves) ends
with `isCalling = true` even though no `call_started` event was handled —
the controller sets the connected-equivalent flag directly. -/
theorem C6_counterexample :
    (BoolApp.toggleConversation BoolApp.initialState
      { httpStatus := 200, accessToken := some "tok",
        startCallFails := false }).1.isCalling = true := by
  decide

/-- Claim C7: for every connected state, `switchMode` to push-to-talk
issues the external mute and forces `isMuted = true`, `switchMode` to
continuous issues the external unmute and forces `isMuted = false`, and in
either case the call is not interrupted: `status` is unchanged and no
`stopCall` command is issued. -/
theorem C7_switch_mode (s : EnumApp.EnumState) (h : s.status = .connected) :
    ((EnumApp.switchMode s .pushToTalk).1.isMuted = true ∧
     (EnumApp.switchMode s .pushToTalk).2 = [RetellCmd.mute]) ∧
    ((EnumApp.switchMode s .continuous).1.isMuted = false ∧
     (EnumApp.switchMode s .continuous).2 = [RetellCmd.unmute]) ∧
    (∀ mode, (EnumApp.switchMode s mode).1.status = s.status ∧
      RetellCmd.stopCall ∉ (EnumApp.switchMode s mode).2) := by
  refine ⟨?_, ?_, ?_⟩
  · constructor <;> simp [EnumApp.switchMode, h]
  · constructor <;> simp [EnumApp.switchMode, h]
  · intro mode
    cases mode <;> simp [EnumApp.switchMode, h]

/-- Claim C7 witness: the statement instantiated at a concrete connected
state. -/
theorem C7_witness :
    ((EnumApp.switchMode
        { EnumApp.initialState with status := .connected } .pushToTalk).1.isMuted = true ∧
     (EnumApp.switchMode
        { EnumApp.initialState with status := .connected } .pushToTalk).2 =
          [RetellCmd.mute]) ∧
    ((EnumApp.switchMode
        { EnumApp.initialState with status := .connected } .continuous).1.isMuted = false ∧
     (EnumApp.switchMode
        { EnumApp.initialState with status := .connected } .continuous).2 =
          [RetellCmd.unmute]) ∧
    (∀ mode, (EnumApp.switchMode
        { EnumApp.initialState with status := .connected } mode).1.status =
        ({ EnumApp.initialState with status := .connected } : EnumApp.EnumState).status ∧
      RetellCmd.stopCall ∉ (EnumApp.switchMode
        { EnumApp.initialState with status := .connected } mode).2) :=
  C7_switch_mode { EnumApp.initialState with status := .connected } rfl

/-- Claim C8: when the registration endpoint answers with a non-2xx status
and the microphone permission is granted, a `startCall` run from idle walks
the status trajectory idle → connecting → error, ends with a non-empty
error message, and issues no command at all to the external client — in
particular its startCall is never invoked. -/
theorem C8_register_failure (s : EnumApp.EnumState) (env : EnumApp.StartEnv)
    (hidle : s.status = .idle) (hmic : env.micPermission = true)
    (hbad : responseOk env.httpStatus = false) :
    s.status :: (EnumApp.startCall s env).statusTrace =
      [.idle, .connecting, .error] ∧
    (∃ msg, (EnumApp.startCall s env).state.error = some msg ∧ msg ≠ "") ∧
    (EnumApp.startCall s env).cmds = [] := by
  refine ⟨?_, ?_, ?_⟩
  · simp [EnumApp.startCall, hidle, hmic, hbad]
  · refine ⟨"Failed to connect. Check your microphone permissions.", ?_, by decide⟩
    simp [EnumApp.startCall, hmic, hbad]
  · simp [EnumApp.startCall, hmic, hbad]

/-- Claim C8 witness: the statement instantiated at the fresh idle state
with the registration endpoint answering HTTP 500. -/
theorem C8_witness :
    EnumApp.initialState.status ::
      (EnumApp.startCall EnumApp.initialState
        { micPermission := true, httpStatus := 500, accessToken := none,
          startCallFails := false }).statusTrace = [.idle, .connecting, .error] ∧
    (∃ msg, (EnumApp.startCall EnumApp.initialState
        { micPermission := true, httpStatus := 500, accessToken := none,
          startCallFails := false }).state.error = some msg ∧ msg ≠ "") ∧
    (EnumApp.startCall EnumApp.initialState
        { micPermission := true, httpStatus := 500, accessToken := none,
          startCallFails := false }).cmds = [] :=
  C8_register_failure EnumApp.initialState
    { micPermission := true, httpStatus := 500, accessToken := none,
      startCallFails := false } rfl rfl (by decide)

/-- Claim C9 (amended): while `isPTTActive` is already true in a connected
push-to-talk state, a repeated Space keydown (key-repeat of the held key)
leaves `isPTTActive = true` but re-invokes the external unmute each time —
`handlePTTStart` has no guard on `isPTTActive`; a single Space keyup
invokes `handlePTTEnd` once, issuing exactly one external mute and
clearing `isPTTActive`. -/
theorem C9_key_repeat (s : EnumApp.EnumState)
    (hc : s.status = .connected) (hm : s.talkMode = .pushToTalk)
    (hp : s.isPTTActive = true) :
    (EnumApp.handleKeyDown s "Space").2 = [RetellCmd.unmute] ∧
    (EnumApp.handleKeyDown s "Space").1.isPTTActive = true ∧
    (EnumApp.handleKeyUp s "Space").2 = [RetellCmd.mute] ∧
    (EnumApp.handleKeyUp s "Space").1.isPTTActive = false := by
  have hne : ("Space" : String) = "KeyM" ↔ False := by simp
  simp [EnumApp.handleKeyDown, EnumApp.handleKeyUp, EnumApp.handlePTTStart,
        EnumApp.handlePTTEnd, hc, hm, hp, hne]

/-- Claim C9 witness: the amended statement instantiated at a concrete
connected push-to-talk state with the key already held. -/
theorem C9_witness :
    (EnumApp.handleKeyDown
      { EnumApp.initialState with
          status := .connected
          talkMode := .pushToTalk
          isPTTActive := true } "Space").2 = [RetellCmd.unmute] ∧
    (EnumApp.handleKeyDown
      { EnumApp.initialState with
          status := .connected
          talkMode := .pushToTalk
          isPTTActive := true } "Space").1.isPTTActive = true ∧
    (EnumApp.handleKeyUp
      { EnumApp.initialState with
          status := .connected
          talkMode := .pushToTalk
          isPTTActive := true } "Space").2 = [RetellCmd.mute] ∧
    (EnumApp.handleKeyUp
      { EnumApp.initialState with
          status := .connected
          talkMode := .pushToTalk
          isPTTActive := true } "Space").1.isPTTActive = false :=
  C9_key_repeat
    { EnumApp.initialState with
        status := .connected
        talkMode := .pushToTalk
        isPTTActive := true } rfl rfl rfl

/-- Claim C9 counterexample: in a connected push-to-talk state with
`isPTTActive` already true, a repeated Space keydown still issues the
external unmute command, so the press action is re-triggered, contrary to
the claim. -/
theorem C9_counterexample :
    RetellCmd.unmute ∈
      (EnumApp.handleKeyDown
        { EnumApp.initialState with
            status := .connected
            talkMode := .pushToTalk
            isPTTActive := true } "Space").2 := by
  decide

/-- Claim C10: in both token-checking variants, a 2xx registration answer
whose `access_token` is missing or empty means the external startCall is
never invoked and no error flag or message is set; in the multi-flag
variant `isTransitioning` additionally stays true on that path, so the
start button remains disabled. -/
theorem C10_empty_token (t : BoolApp.BoolState) (envB : BoolApp.ToggleEnv)
    (u : FlagApp.FlagState) (envF : FlagApp.ToggleEnv)
    (ht : t.isCalling = false)
    (hBok : responseOk envB.httpStatus = true)
    (hBtok : tokenTruthy envB.accessToken = false)
    (hu1 : u.isCalling = false) (hu2 : u.isTransitioning = false)
    (hu3 : u.isCheckingMic = false)
    (hmic : envF.micPermission = true)
    (hFok : responseOk envF.httpStatus = true)
    (hFtok : tokenTruthy envF.accessToken = false) :
    (∀ tok raw, RetellCmd.startCall tok raw ∉ (BoolApp.toggleConversation t envB).2) ∧
    (BoolApp.toggleConversation t envB).1.error = none ∧
    (∀ tok raw, RetellCmd.startCall tok raw ∉ (FlagApp.toggleConversation u envF).2) ∧
    (FlagApp.toggleConversation u envF).1.hasError = false ∧
    (FlagApp.toggleConversation u envF).1.isTransitioning = true ∧
    FlagApp.startButtonDisabled (FlagApp.toggleConversation u envF).1 = true := by
  simp [BoolApp.toggleConversation, FlagApp.toggleConversation,
        FlagApp.startButtonDisabled, ht, hBok, hBtok, hu1, hu2, hu3,
        hmic, hFok, hFtok]

/-- Claim C10 witness: the statement instantiated with a 2xx answer whose
body carries an empty token (boolean variant) and a 2xx answer with the
token field absent (multi-flag variant). -/
theorem C10_witness :
    (∀ tok raw, RetellCmd.startCall tok raw ∉
      (BoolApp.toggleConversation BoolApp.initialState
        { httpStatus := 200, accessToken := some "", startCallFails := false }).2) ∧
    (BoolApp.toggleConversation BoolApp.initialState
      { httpStatus := 200, accessToken := some "", startCallFails := false }).1.error
        = none ∧
    (∀ tok raw, RetellCmd.startCall tok raw ∉
      (FlagApp.toggleConversation FlagApp.initialState
        { micPermission := true, micErrorDetail := "", httpStatus := 200,
          accessToken := none, startCallFails := false }).2) ∧
    (FlagApp.toggleConversation FlagApp.initialState
      { micPermission := true, micErrorDetail := "", httpStatus := 200,
        accessToken := none, startCallFails := false }).1.hasError = false ∧
    (FlagApp.toggleConversation FlagApp.initialState
      { micPermission := true, micErrorDetail := "", httpStatus := 200,
        accessToken := none, startCallFails := false }).1.isTransitioning = true ∧
    FlagApp.startButtonDisabled
      (FlagApp.toggleConversation FlagApp.initialState
        { micPermission := true, micErrorDetail := "", httpStatus := 200,
          accessToken := none, startCallFails := false }).1 = true :=
  C10_empty_token BoolApp.initialState
    { httpStatus := 200, accessToken := some "", startCallFails := false }
    FlagApp.initialState
    { micPermission := true, micErrorDetail := "", httpStatus := 200,
      accessToken := none, startCallFails := false }
    rfl (by decide) (by decide) rfl rfl rfl rfl (by decide) (by decide)
